import Mathlib

/-!
Verification of the AntiHub-ALL quota-trend aggregation, container entrypoint and
database-initialization scripts, plus the Ledger Engine admission check of the spec.

Conventions of the shallow embedding:

* Timestamps are modelled as integer milliseconds since the Unix epoch
  (`Date.getTime()`).  `Date.prototype.toISOString` is injective on the underlying
  millisecond value, so ISO-8601 string keys and query parameters are modelled by
  the millisecond value itself.
* The chart floors an event time to the top of the hour in local time via
  `new Date(y, mo, d, h)`; for a timezone with fixed UTC offset `tz` milliseconds
  (local wall clock = UTC instant + `tz`) this is exactly
  `msPerHour * ((t + tz) / msPerHour) - tz` with floor division, which the
  definitions below take as `hourKey tz t`.  All results are parametric in `tz`.
* Decimal-string quota amounts are modelled by their exact rational value.
  The JavaScript source actually converts them with `parseFloat` and sums IEEE-754
  binary64 values; that numeric discrepancy is modelled separately by `fl64`.
-/

/-- One aggregation bucket in milliseconds (`60 * 60 * 1000` in the chart code). -/
def msPerHour : Int := 3600000

/-- The bucket key used by `quota-trend-chart.tsx`: the epoch milliseconds of
`new Date(d.getFullYear(), d.getMonth(), d.getDate(), d.getHours())`, i.e. the
event instant floored to the top of the hour of a timezone with fixed UTC offset
`tz` milliseconds. -/
def hourKey (tz t : Int) : Int := msPerHour * ((t + tz) / msPerHour) - tz

/-- One record returned by `getQuotaConsumption`: `consumed_at` is the parsed
ISO-8601 timestamp in epoch milliseconds, `quota_consumed` the exact value of the
decimal string. -/
structure ConsumptionRecord where
  consumed_at : Int
  quota_consumed : ℚ
deriving DecidableEq

/-- One element of the chart state `TrendDataPoint` of `quota-trend-chart.tsx`:
`time` is the bucket key (an epoch-millisecond value standing for the hour-key ISO
string), `quota_consumed` the accumulated quota, `count` the accumulated call
count. -/
structure TrendDataPoint where
  time : Int
  quota_consumed : ℚ
  count : Nat
deriving DecidableEq

/-- One step of the `consumptionData.forEach` loop: the `hourlyData` map after
processing record `e`, as a total function from bucket key to the quota/count
pair.  `Map.get` returning `undefined` is merged with the zero default the code
supplies on lookup, which is observationally identical here because every stored
entry has positive count. -/
def stepHourly (tz : Int) (m : Int → ℚ × Nat) (e : ConsumptionRecord) : Int → ℚ × Nat :=
  fun k =>
    if hourKey tz e.consumed_at = k then ((m k).1 + e.quota_consumed, (m k).2 + 1)
    else m k

/-- The `hourlyData` map built by the `forEach` loop of `quota-trend-chart.tsx`. -/
def buildHourly (tz : Int) (events : List ConsumptionRecord) : Int → ℚ × Nat :=
  events.foldl (stepHourly tz) (fun _ => (0, 0))

/-- Iteration `i` of the chart-data loop of `quota-trend-chart.tsx`:
`time = new Date(now.getTime() - (hours - i) * 60 * 60 * 1000)` floored to its
hour key, looked up in `hourlyData` with the zero default. -/
def mkPoint (tz now : Int) (hours : Nat) (events : List ConsumptionRecord) (i : Nat) :
    TrendDataPoint :=
  let k := hourKey tz (now - ((hours : Int) - (i : Int)) * msPerHour)
  { time := k
    quota_consumed := (buildHourly tz events k).1
    count := (buildHourly tz events k).2 }

/-- The `chartData` array produced by `loadData` in `quota-trend-chart.tsx` from
the fetched records: the `for (let i = 0; i < hours; i++)` loop. -/
def loadDataChart (tz now : Int) (hours : Nat) (events : List ConsumptionRecord) :
    List TrendDataPoint :=
  (List.range hours).map (mkPoint tz now hours events)

/-- The parameters of the single `getQuotaConsumption` call issued by `loadData`
(dates modelled by their epoch-millisecond values; `toISOString` is injective on
them). -/
structure ConsumptionQuery where
  limit : Nat
  start_date : Int
  end_date : Int
deriving DecidableEq

/-- The query built by `loadData`: `limit: 1000`,
`start_date: new Date(now.getTime() - hours * 60 * 60 * 1000)`, `end_date: now`. -/
def loadDataQuery (now : Int) (hours : Nat) : ConsumptionQuery :=
  { limit := 1000, start_date := now - (hours : Int) * 60 * 60 * 1000, end_date := now }

/-- The full `loadData` data path on a successful fetch: the one query it issues
and the chart series computed from the response solely by client-side
re-bucketing. -/
def loadDataResult (tz now : Int) (hours : Nat) (response : List ConsumptionRecord) :
    ConsumptionQuery × List TrendDataPoint :=
  (loadDataQuery now hours, loadDataChart tz now hours response)

/-- Whether `e` is a bucket edge (left or right boundary of an emitted bucket) of
a chart result. -/
def isBucketEdge (out : List TrendDataPoint) (e : Int) : Prop :=
  ∃ p ∈ out, p.time = e ∨ p.time + msPerHour = e

/-- A JavaScript thrown value as discriminated by `err instanceof Error`. -/
inductive JsThrown where
  | jsError (message : String)
  | nonError
deriving DecidableEq

/-- The message stored by the catch branch of `loadData`: the message of the
thrown value when it is an `Error` (tested with `err instanceof Error`), and the
default failure text 加载趋势数据失败 otherwise. -/
def thrownMessage : JsThrown → String
  | .jsError m => m
  | .nonError => "加载趋势数据失败"

/-- Outcome of the awaited `getQuotaConsumption` call. -/
inductive FetchResult where
  | ok (records : List ConsumptionRecord)
  | thrown (e : JsThrown)

/-- The `QuotaTrendChart` component state touched by `loadData`: the `data`,
`isLoading` and `error` `useState` cells. -/
structure ComponentState where
  data : List TrendDataPoint
  isLoading : Bool
  error : Option String
deriving DecidableEq

/-- The initial component state: `useState<TrendDataPoint[]>([])`,
`useState(true)`, `useState<string | null>(null)`. -/
def initialComponentState : ComponentState :=
  { data := [], isLoading := true, error := none }

/-- One complete run of `loadData` as a state transformer: `setIsLoading(true)`
and `setError(null)` first; on success `setData(chartData)`, on a thrown value
`setError(...)` with `data` untouched; `setIsLoading(false)` in the `finally`
block on both paths. -/
def loadDataRun (tz now : Int) (hours : Nat) (s : ComponentState) (r : FetchResult) :
    ComponentState :=
  let s1 : ComponentState := { s with isLoading := true, error := none }
  match r with
  | .ok records =>
      { s1 with data := loadDataChart tz now hours records, isLoading := false }
  | .thrown e =>
      { s1 with error := some (thrownMessage e), isLoading := false }

/-- Number of binary digits of `n` (`0` for `0`), by structural recursion on a
fuel argument so that the kernel can evaluate it. -/
def bitsAux : Nat → Nat → Nat
  | 0, _ => 0
  | fuel + 1, n => if n = 0 then 0 else bitsAux fuel (n / 2) + 1

/-- Number of binary digits of `n`. -/
def bits (n : Nat) : Nat := bitsAux n n

/-- Floor of the base-2 logarithm of a positive rational, from the bit lengths of
numerator and denominator with a one-step correction. -/
def floorLog2 (q : ℚ) : ℤ :=
  let e : ℤ := (bits q.num.toNat : ℤ) - (bits q.den : ℤ)
  if (2 : ℚ) ^ e ≤ q then e else e - 1

/-- Round to the nearest integer, ties to even — the IEEE-754 default rounding. -/
def roundHalfEven (q : ℚ) : ℤ :=
  if q - ⌊q⌋ < 1 / 2 then ⌊q⌋
  else if 1 / 2 < q - ⌊q⌋ then ⌊q⌋ + 1
  else if Even ⌊q⌋ then ⌊q⌋ else ⌊q⌋ + 1

/-- The IEEE-754 binary64 value nearest to a positive rational in the normal
range (53-bit significand, round to nearest, ties to even): the number semantics
JavaScript applies to `parseFloat(record.quota_consumed)` and to `+` in
`existing.quota += parseFloat(...)` in `quota-trend-chart.tsx`.  Values `≤ 0` and
overflow/subnormal behaviour are irrelevant to the statements below and are
clamped to `0`. -/
def fl64 (q : ℚ) : ℚ :=
  if q ≤ 0 then 0
  else (roundHalfEven (q * 2 ^ ((52 : ℤ) - floorLog2 q)) : ℚ) * 2 ^ (floorLog2 q - 52)

/-- Outcome of the Ledger Engine admission check. -/
inductive ReserveOutcome where
  | reserved (remaining : ℚ)
  | insufficientQuota
deriving DecidableEq

/-- Modelled from the spec: the Ledger Engine (`CheckAndReserve`) is not part of
the visible repository fragment.  Per §4.1, it atomically verifies
`remaining_quota ≥ estimated_amount` and in the same atomic step decrements the
counter; on insufficient funds it fails with `InsufficientQuota` without mutating
state.  The whole check-and-decrement is a single atomic operation, so a
concurrent execution of two calls is one of the two sequential orders. -/
def checkAndReserve (remaining amount : ℚ) : ReserveOutcome :=
  if amount ≤ remaining then .reserved (remaining - amount) else .insufficientQuota

/-- Modelled from the spec: the two possible atomic interleavings of two
concurrent `CheckAndReserve` calls are the two sequential executions; this runs
the call for `a` first, threading the pool counter, then the call for `b`. -/
def reserveTwice (remaining a b : ℚ) : ReserveOutcome × ReserveOutcome :=
  match checkAndReserve remaining a with
  | .reserved r2 => (.reserved r2, checkAndReserve r2 b)
  | .insufficientQuota => (.insufficientQuota, checkAndReserve remaining b)

/-- Shell `$\x7bVAR:-default\x7d` substitution: the default is used when the
variable is unset or empty. -/
def dollarDefault : Option String → String → String
  | none, d => d
  | some s, d => if s = "" then d else s

/-- Expansion `$\x7bPORT:-8045\x7d` in the entrypoint heredoc. -/
def configPort (env : String → Option String) : String := dollarDefault (env "PORT") "8045"

/-- Expansion `$\x7bDB_HOST:-localhost\x7d`. -/
def configDbHost (env : String → Option String) : String :=
  dollarDefault (env "DB_HOST") "localhost"

/-- Expansion `$\x7bDB_PORT:-5432\x7d`. -/
def configDbPort (env : String → Option String) : String :=
  dollarDefault (env "DB_PORT") "5432"

/-- Expansion `$\x7bDB_NAME:-antigv\x7d`. -/
def configDbName (env : String → Option String) : String :=
  dollarDefault (env "DB_NAME") "antigv"

/-- Expansion `$\x7bDB_USER:-postgres\x7d`. -/
def configDbUser (env : String → Option String) : String :=
  dollarDefault (env "DB_USER") "postgres"

/-- Expansion `$\x7bDB_PASSWORD:-postgres\x7d`. -/
def configDbPassword (env : String → Option String) : String :=
  dollarDefault (env "DB_PASSWORD") "postgres"

/-- Expansion `$\x7bREDIS_HOST:-localhost\x7d`. -/
def configRedisHost (env : String → Option String) : String :=
  dollarDefault (env "REDIS_HOST") "localhost"

/-- Expansion `$\x7bREDIS_PORT:-6379\x7d`. -/
def configRedisPort (env : String → Option String) : String :=
  dollarDefault (env "REDIS_PORT") "6379"

/-- Expansion `$\x7bREDIS_PASSWORD:-\x7d`. -/
def configRedisPassword (env : String → Option String) : String :=
  dollarDefault (env "REDIS_PASSWORD") ""

/-- Expansion `$\x7bOAUTH_CALLBACK_URL:-http://localhost:8045/api/oauth/callback\x7d`. -/
def configOauthCallback (env : String → Option String) : String :=
  dollarDefault (env "OAUTH_CALLBACK_URL") "http://localhost:8045/api/oauth/callback"

/-- Expansion `$\x7bADMIN_API_KEY:-sk-admin-default-key\x7d`. -/
def configAdminApiKey (env : String → Option String) : String :=
  dollarDefault (env "ADMIN_API_KEY") "sk-admin-default-key"

/-- The exact text the entrypoint heredoc writes to `/app/config.json` for a given
environment (shell parameter expansions substituted, everything else literal). -/
def renderConfig (env : String → Option String) : String :=
  "\x7b\n  \"server\": \x7b\n    \"port\": \"" ++ configPort env ++
  "\",\n    \"host\": \"0.0.0.0\"\n  \x7d,\n  \"database\": \x7b\n    \"host\": \"" ++
  configDbHost env ++
  "\",\n    \"port\": " ++ configDbPort env ++
  ",\n    \"database\": \"" ++ configDbName env ++
  "\",\n    \"user\": \"" ++ configDbUser env ++
  "\",\n    \"password\": \"" ++ configDbPassword env ++
  "\",\n    \"max\": 20,\n    \"idleTimeoutMillis\": 30000,\n    \"connectionTimeoutMillis\": 2000\n  \x7d,\n  \"redis\": \x7b\n    \"host\": \"" ++
  configRedisHost env ++
  "\",\n    \"port\": " ++ configRedisPort env ++
  ",\n    \"password\": \"" ++ configRedisPassword env ++
  "\",\n    \"db\": 0\n  \x7d,\n  \"oauth\": \x7b\n    \"callbackUrl\": \"" ++
  configOauthCallback env ++
  "\"\n  \x7d,\n  \"security\": \x7b\n    \"maxRequestSize\": \"50mb\",\n    \"adminApiKey\": \"" ++
  configAdminApiKey env ++
  "\"\n  \x7d,\n  \"systemInstruction\": \"\"\n\x7d\n"

/-- The contents of `/app/config.json` after the entrypoint runs:
`if [ -f "$CONFIG_FILE" ]` skips generation and leaves the existing file
untouched; otherwise the heredoc is written. -/
def entrypointConfig (existing : Option String) (env : String → Option String) : String :=
  match existing with
  | some c => c
  | none => renderConfig env

/-- One run of the `antigravity` init script against the set of database names in
`pg_database`: a CREATE DATABASE statement for antigravity is generated (via the
psql gexec meta-command) only when the WHERE NOT EXISTS guard over `pg_database`
finds no row of that name. -/
def initStep (dbs : List String) : List String :=
  if "antigravity" ∈ dbs then dbs else dbs ++ ["antigravity"]

/-! ## Basic lemmas about the hour-key and the hourly map -/

theorem msPerHour_pos : (0 : Int) < msPerHour := by decide

theorem hourKey_le (tz t : Int) : hourKey tz t ≤ t := by
  unfold hourKey msPerHour
  omega

theorem lt_hourKey_add (tz t : Int) : t < hourKey tz t + msPerHour := by
  unfold hourKey msPerHour
  omega

theorem hourKey_sub_mul (tz t k : Int) :
    hourKey tz (t - k * msPerHour) = hourKey tz t - k * msPerHour := by
  unfold hourKey msPerHour
  omega

theorem buildHourly_apply (tz k : Int) (events : List ConsumptionRecord) :
    buildHourly tz events k
      = (((events.filter fun e => hourKey tz e.consumed_at = k).map
            fun e => e.quota_consumed).sum,
         (events.filter fun e => hourKey tz e.consumed_at = k).length) := by
  have main : ∀ (l : List ConsumptionRecord) (m : Int → ℚ × Nat),
      (l.foldl (stepHourly tz) m) k
        = ((m k).1 + ((l.filter fun e => hourKey tz e.consumed_at = k).map
              fun e => e.quota_consumed).sum,
           (m k).2 + (l.filter fun e => hourKey tz e.consumed_at = k).length) := by
    intro l
    induction l with
    | nil => intro m; simp
    | cons e rest ih =>
      intro m
      rw [List.foldl_cons, ih]
      by_cases hk : hourKey tz e.consumed_at = k
      · have hstep : (stepHourly tz m e) k = ((m k).1 + e.quota_consumed, (m k).2 + 1) := by
          simp [stepHourly, hk]
        rw [hstep, List.filter_cons_of_pos (by simpa using hk)]
        simp only [List.map_cons, List.sum_cons, List.length_cons]
        refine Prod.ext ?_ ?_
        · push_cast
          ring
        · simp
          omega
      · have hstep : (stepHourly tz m e) k = m k := by
          simp [stepHourly, hk]
        rw [hstep, List.filter_cons_of_neg (by simpa using hk)]
  rw [buildHourly, main]
  simp

theorem mem_loadDataChart {tz now : Int} {hours : Nat} {events : List ConsumptionRecord}
    {p : TrendDataPoint} :
    p ∈ loadDataChart tz now hours events
      ↔ ∃ i : Nat, i < hours ∧ p = mkPoint tz now hours events i := by
  constructor
  · intro hp
    rcases List.mem_map.mp hp with ⟨i, hi, hip⟩
    exact ⟨i, List.mem_range.mp hi, hip.symm⟩
  · rintro ⟨i, hi, rfl⟩
    exact List.mem_map.mpr ⟨i, List.mem_range.mpr hi, rfl⟩

theorem mkPoint_time (tz now : Int) (hours : Nat) (events : List ConsumptionRecord)
    (i : Nat) :
    (mkPoint tz now hours events i).time
      = hourKey tz now - ((hours : Int) - (i : Int)) * msPerHour := by
  unfold mkPoint
  exact hourKey_sub_mul tz now ((hours : Int) - (i : Int))

theorem mkPoint_lookup (tz now : Int) (hours : Nat) (events : List ConsumptionRecord)
    (i : Nat) :
    (mkPoint tz now hours events i).quota_consumed
        = (buildHourly tz events (mkPoint tz now hours events i).time).1
      ∧ (mkPoint tz now hours events i).count
        = (buildHourly tz events (mkPoint tz now hours events i).time).2 := by
  exact ⟨rfl, rfl⟩

/-! ## Claim theorems: trend aggregation -/

/-- C1 counterexample: the emitted buckets do not cover the full requested range
up to `end`.  With `tz = 0`, `now = 88200000` (half past an hour) and a 24-hour
window, the instant `86400100` lies inside the requested range
`[now - 24h, now)` but inside no emitted bucket: the loop stops at the bucket
ending at the top of the hour containing `now`, so the final partial hour is
uncovered. -/
theorem claim1_full_range_counterexample :
    (88200000 - 24 * msPerHour : Int) ≤ 86400100 ∧ (86400100 : Int) < 88200000 ∧
      ∀ p ∈ loadDataChart 0 88200000 24 [],
        ¬(p.time ≤ 86400100 ∧ (86400100 : Int) < p.time + msPerHour) := by
  decide

/-- C1 (amended): for every requested window of `hours` hours the aggregation
returns exactly `hours` TrendPoints, one per hour-aligned bucket, contiguously
covering `[hourKey(now) - hours·1h, hourKey(now))` — i.e. up to the top of the
hour containing `end`, not up to `end` itself — and buckets containing no
consumption events are still emitted with `quota_consumed = 0` and `count = 0`;
in particular a window with zero events yields exactly `hours` points, all
zero. -/
theorem claim1_gap_filled_contiguous_buckets (tz now : Int) (hours : Nat)
    (events : List ConsumptionRecord) :
    (loadDataChart tz now hours events).length = hours
    ∧ (∀ p ∈ loadDataChart tz now hours events,
        (∀ e ∈ events, hourKey tz e.consumed_at ≠ p.time) →
          p.quota_consumed = 0 ∧ p.count = 0)
    ∧ (∀ t : Int, hourKey tz now - (hours : Int) * msPerHour ≤ t →
        t < hourKey tz now →
        ∃ p ∈ loadDataChart tz now hours events, p.time ≤ t ∧ t < p.time + msPerHour)
    ∧ (events = [] → ∀ p ∈ loadDataChart tz now hours events,
        p.quota_consumed = 0 ∧ p.count = 0) := by
  have hzero : ∀ p ∈ loadDataChart tz now hours events,
      (∀ e ∈ events, hourKey tz e.consumed_at ≠ p.time) →
        p.quota_consumed = 0 ∧ p.count = 0 := by
    intro p hp hnone
    rcases mem_loadDataChart.mp hp with ⟨i, hi, rfl⟩
    rcases mkPoint_lookup tz now hours events i with ⟨hq, hc⟩
    have hfil : (events.filter
        fun e => hourKey tz e.consumed_at = (mkPoint tz now hours events i).time) = [] := by
      apply List.filter_eq_nil_iff.mpr
      intro e he
      simpa using hnone e he
    rw [hq, hc, buildHourly_apply, hfil]
    simp
  refine ⟨by simp [loadDataChart], hzero, ?_, ?_⟩
  · intro t h1 h2
    have hm : msPerHour = (3600000 : Int) := rfl
    set d : Int := t - (hourKey tz now - (hours : Int) * msPerHour) with hd
    have hd0 : (0 : Int) ≤ d := by omega
    have hdlt : d < (hours : Int) * msPerHour := by omega
    have hj0 : (0 : Int) ≤ d / msPerHour := by
      rw [hm]
      omega
    have hjlt : d / msPerHour < (hours : Int) := by
      rw [hm] at hdlt ⊢
      omega
    set i : Nat := (d / msPerHour).toNat with hi
    have hiI : (i : Int) = d / msPerHour := Int.toNat_of_nonneg hj0
    have hih : i < hours := by
      have : (i : Int) < (hours : Int) := by rw [hiI]; exact hjlt
      exact_mod_cast this
    refine ⟨mkPoint tz now hours events i, mem_loadDataChart.mpr ⟨i, hih, rfl⟩, ?_, ?_⟩
    · rw [mkPoint_time]
      rw [hm] at hd hiI ⊢
      omega
    · rw [mkPoint_time]
      rw [hm] at hd hiI ⊢
      omega
  · rintro rfl p hp
    exact hzero p hp (by simp)

/-- C1 witness: the amended theorem at `tz = 0`, `now = 88200000`, a 24-hour
window and no events. -/
theorem claim1_gap_filled_contiguous_buckets_witness :
    (loadDataChart 0 88200000 24 []).length = 24
    ∧ (∀ p ∈ loadDataChart 0 88200000 24 [],
        (∀ e ∈ ([] : List ConsumptionRecord), hourKey 0 e.consumed_at ≠ p.time) →
          p.quota_consumed = 0 ∧ p.count = 0)
    ∧ (∀ t : Int, hourKey 0 88200000 - (24 : Int) * msPerHour ≤ t →
        t < hourKey 0 88200000 →
        ∃ p ∈ loadDataChart 0 88200000 24 [], p.time ≤ t ∧ t < p.time + msPerHour)
    ∧ (([] : List ConsumptionRecord) = [] → ∀ p ∈ loadDataChart 0 88200000 24 [],
        p.quota_consumed = 0 ∧ p.count = 0) :=
  claim1_gap_filled_contiguous_buckets 0 88200000 24 []

/-- C2: every fetched event lying in the requested window is assigned to exactly
the hour-aligned bucket containing it (its time floored to the top of the hour),
and every emitted bucket carries the sum of `quota_consumed` over the events
assigned to it and the count of those events. -/
theorem claim2_bucket_assignment_and_sums (tz now : Int) (hours : Nat)
    (events : List ConsumptionRecord)
    (hwin : ∀ e ∈ events,
      now - (hours : Int) * msPerHour ≤ e.consumed_at ∧ e.consumed_at < now) :
    (∀ e ∈ events, hourKey tz e.consumed_at ≤ e.consumed_at
        ∧ e.consumed_at < hourKey tz e.consumed_at + msPerHour)
    ∧ ∀ p ∈ loadDataChart tz now hours events,
        p.quota_consumed
            = ((events.filter fun e => hourKey tz e.consumed_at = p.time).map
                fun e => e.quota_consumed).sum
        ∧ p.count = (events.filter fun e => hourKey tz e.consumed_at = p.time).length := by
  refine ⟨fun e _ => ⟨hourKey_le tz e.consumed_at, lt_hourKey_add tz e.consumed_at⟩, ?_⟩
  intro p hp
  rcases mem_loadDataChart.mp hp with ⟨i, hi, rfl⟩
  rcases mkPoint_lookup tz now hours events i with ⟨hq, hc⟩
  exact ⟨by rw [hq, buildHourly_apply], by rw [hc, buildHourly_apply]⟩

/-- C2 witness: the theorem at `tz = 0`, `now = 7200000`, a 2-hour window and one
event at `3600005` worth `7`. -/
theorem claim2_bucket_assignment_and_sums_witness :
    (∀ e ∈ [ConsumptionRecord.mk 3600005 7], hourKey 0 e.consumed_at ≤ e.consumed_at
        ∧ e.consumed_at < hourKey 0 e.consumed_at + msPerHour)
    ∧ ∀ p ∈ loadDataChart 0 7200000 2 [ConsumptionRecord.mk 3600005 7],
        p.quota_consumed
            = (([ConsumptionRecord.mk 3600005 7].filter
                fun e => hourKey 0 e.consumed_at = p.time).map
                fun e => e.quota_consumed).sum
        ∧ p.count = ([ConsumptionRecord.mk 3600005 7].filter
            fun e => hourKey 0 e.consumed_at = p.time).length :=
  claim2_bucket_assignment_and_sums 0 7200000 2 [ConsumptionRecord.mk 3600005 7]
    (by decide)

/-- C4: the TrendPoint sequence is strictly ascending in `bucket_start` for every
requested window and every input event list. -/
theorem claim4_sorted_ascending (tz now : Int) (hours : Nat)
    (events : List ConsumptionRecord) :
    List.Pairwise (fun p q : TrendDataPoint => p.time < q.time)
      (loadDataChart tz now hours events) := by
  unfold loadDataChart
  refine List.Pairwise.map _ ?_ (List.pairwise_lt_range hours)
  intro i j hij
  rw [mkPoint_time, mkPoint_time]
  have hm : msPerHour = (3600000 : Int) := rfl
  rw [hm]
  have hij' : (i : Int) < (j : Int) := by exact_mod_cast hij
  omega

theorem isBucketEdge_iff {tz now : Int} {hours : Nat} {events : List ConsumptionRecord}
    {e : Int} :
    isBucketEdge (loadDataChart tz now hours events) e
      ↔ 1 ≤ hours ∧ ∃ j : Nat, j ≤ hours ∧ e = hourKey tz now - (j : Int) * msPerHour := by
  constructor
  · rintro ⟨p, hp, hcase⟩
    rcases mem_loadDataChart.mp hp with ⟨i, hi, rfl⟩
    rw [mkPoint_time] at hcase
    refine ⟨by omega, ?_⟩
    rcases hcase with h | h
    · refine ⟨hours - i, by omega, ?_⟩
      have hc : ((hours - i : Nat) : Int) = (hours : Int) - (i : Int) := by omega
      rw [hc, ← h]
    · refine ⟨hours - i - 1, by omega, ?_⟩
      have hc : ((hours - i - 1 : Nat) : Int) = (hours : Int) - (i : Int) - 1 := by omega
      rw [hc, ← h]
      ring
  · rintro ⟨h1, j, hj, rfl⟩
    by_cases hj1 : 1 ≤ j
    · refine ⟨mkPoint tz now hours events (hours - j),
        mem_loadDataChart.mpr ⟨hours - j, by omega, rfl⟩, Or.inl ?_⟩
      rw [mkPoint_time]
      have hc : ((hours - j : Nat) : Int) = (hours : Int) - (j : Int) := by omega
      rw [hc]
      ring
    · have hj0 : j = 0 := by omega
      subst hj0
      refine ⟨mkPoint tz now hours events (hours - 1),
        mem_loadDataChart.mpr ⟨hours - 1, by omega, rfl⟩, Or.inr ?_⟩
      rw [mkPoint_time]
      have hc : ((hours - 1 : Nat) : Int) = (hours : Int) - 1 := by omega
      rw [hc]
      push_cast
      ring

theorem bucket_edges_transfer (tz now1 now2 : Int) (h1 h2 : Nat)
    (ev1 ev2 : List ConsumptionRecord) (e : Int)
    (hs2 : now2 - (h2 : Int) * msPerHour ≤ e) (he2 : e < now2) :
    isBucketEdge (loadDataChart tz now1 h1 ev1) e →
      isBucketEdge (loadDataChart tz now2 h2 ev2) e := by
  intro hedge
  rcases isBucketEdge_iff.mp hedge with ⟨hh1, j1, hj1, rfl⟩
  have hm : msPerHour = (3600000 : Int) := rfl
  have hk1 : hourKey tz now1 = 3600000 * ((now1 + tz) / 3600000) - tz := rfl
  have hk2 : hourKey tz now2 = 3600000 * ((now2 + tz) / 3600000) - tz := rfl
  rw [hm, hk1] at hs2 he2
  apply isBucketEdge_iff.mpr
  have hh2 : 1 ≤ h2 := by omega
  refine ⟨hh2,
    ((now2 + tz) / 3600000 - (now1 + tz) / 3600000 + (j1 : Int)).toNat, ?_, ?_⟩
  · omega
  · rw [hm, hk1, hk2]
    omega

set_option maxRecDepth 20000 in
unseal Rat.add in
/-- C3: bucket boundaries are a pure function of event time and bucket width,
anchored to the top of the hour and independent of the requested `start_time` —
every bucket edge inside the overlap of two requested ranges is an edge in both
results — and a 10-bucket window with events only in buckets 2 and 5 yields 10
TrendPoints whose sums are nonzero exactly at those indices. -/
theorem claim3_anchor_aligned_buckets :
    (∀ (tz now1 now2 e : Int) (h1 h2 : Nat) (ev1 ev2 : List ConsumptionRecord),
      now1 - (h1 : Int) * msPerHour ≤ e → e < now1 →
      now2 - (h2 : Int) * msPerHour ≤ e → e < now2 →
        (isBucketEdge (loadDataChart tz now1 h1 ev1) e
          ↔ isBucketEdge (loadDataChart tz now2 h2 ev2) e))
    ∧ (loadDataChart 0 36000000 10
          [ConsumptionRecord.mk 7200005 3, ConsumptionRecord.mk 18000007 4]).map
        (fun p => p.time)
        = [0, 3600000, 7200000, 10800000, 14400000, 18000000, 21600000, 25200000,
           28800000, 32400000]
    ∧ (loadDataChart 0 36000000 10
          [ConsumptionRecord.mk 7200005 3, ConsumptionRecord.mk 18000007 4]).map
        (fun p => p.quota_consumed)
        = [0, 0, 3, 0, 0, 4, 0, 0, 0, 0]
    ∧ (loadDataChart 0 36000000 10
          [ConsumptionRecord.mk 7200005 3, ConsumptionRecord.mk 18000007 4]).map
        (fun p => p.count)
        = [0, 0, 1, 0, 0, 1, 0, 0, 0, 0] := by
  refine ⟨?_, by decide, by decide, by decide⟩
  intro tz now1 now2 e h1 h2 ev1 ev2 hs1 he1 hs2 he2
  exact ⟨bucket_edges_transfer tz now1 now2 h1 h2 ev1 ev2 e hs2 he2,
    bucket_edges_transfer tz now2 now1 h2 h1 ev2 ev1 e hs1 he1⟩

/-- C3 witness: the edge-agreement part applied at `tz = 0` to the overlapping
25-hour-old and 26-hour-old 24-hour windows and the shared bucket edge
`86400000`. -/
theorem claim3_anchor_aligned_buckets_witness :
    isBucketEdge (loadDataChart 0 90000000 24 []) 86400000
      ↔ isBucketEdge (loadDataChart 0 93600000 24 []) 86400000 :=
  claim3_anchor_aligned_buckets.1 0 90000000 93600000 86400000 24 24 [] []
    (by decide) (by decide) (by decide) (by decide)

set_option maxRecDepth 20000 in
unseal Rat.add Rat.mul Rat.inv Rat.sub in
/-- C5 supporting theorem: the chart sums quota with `parseFloat` and JavaScript
number addition, i.e. IEEE-754 binary64 arithmetic.  For the decimal strings
`0.1` and `0.2` landing in one bucket, the binary64 sum the code computes —
`fl64 (fl64 (1/10) + fl64 (2/10))` — differs both from the exact decimal sum
`3/10` the claim requires and from the binary64 value of the decimal string
`0.3`, so per-bucket sums drift away from the exact decimal total. -/
theorem claim5_parseFloat_drift :
    fl64 (fl64 (1 / 10) + fl64 (2 / 10)) ≠ (3 : ℚ) / 10
    ∧ fl64 (fl64 (1 / 10) + fl64 (2 / 10)) ≠ fl64 (3 / 10)
    ∧ fl64 (1 / 10) + fl64 (2 / 10) ≠ (3 : ℚ) / 10 := by
  refine ⟨by decide, by decide, by decide⟩

/-- C6: for each selectable range (24, 48 or 168 hours) the loader issues the
single consumption query with `limit = 1000`, `start_date = now − h·3600000 ms`
and `end_date = now`, and the trend series is computed solely by re-bucketing the
returned raw records client-side per hour bucket. -/
theorem claim6_single_query_client_rebucketing (tz now : Int) (hours : Nat)
    (response : List ConsumptionRecord)
    (hsel : hours = 24 ∨ hours = 48 ∨ hours = 168) :
    (loadDataResult tz now hours response).1.limit = 1000
    ∧ (loadDataResult tz now hours response).1.start_date
        = now - (hours : Int) * 3600000
    ∧ (loadDataResult tz now hours response).1.end_date = now
    ∧ (loadDataResult tz now hours response).2 = loadDataChart tz now hours response
    ∧ ∀ p ∈ (loadDataResult tz now hours response).2,
        p.quota_consumed
            = ((response.filter fun e => hourKey tz e.consumed_at = p.time).map
                fun e => e.quota_consumed).sum
        ∧ p.count
            = (response.filter fun e => hourKey tz e.consumed_at = p.time).length := by
  refine ⟨rfl, ?_, rfl, rfl, ?_⟩
  · show now - (hours : Int) * 60 * 60 * 1000 = now - (hours : Int) * 3600000
    ring
  · intro p hp
    rcases mem_loadDataChart.mp hp with ⟨i, hi, rfl⟩
    rcases mkPoint_lookup tz now hours response i with ⟨hq, hc⟩
    exact ⟨by rw [hq, buildHourly_apply], by rw [hc, buildHourly_apply]⟩

/-- C6 witness: the theorem at `tz = 0`, `now = 86400000`, the 24-hour range and
an empty response. -/
theorem claim6_single_query_client_rebucketing_witness :
    (loadDataResult 0 86400000 24 []).1.limit = 1000
    ∧ (loadDataResult 0 86400000 24 []).1.start_date = 86400000 - (24 : Int) * 3600000
    ∧ (loadDataResult 0 86400000 24 []).1.end_date = 86400000
    ∧ (loadDataResult 0 86400000 24 []).2 = loadDataChart 0 86400000 24 []
    ∧ ∀ p ∈ (loadDataResult 0 86400000 24 []).2,
        p.quota_consumed
            = ((([] : List ConsumptionRecord).filter
                fun e => hourKey 0 e.consumed_at = p.time).map
                fun e => e.quota_consumed).sum
        ∧ p.count
            = (([] : List ConsumptionRecord).filter
                fun e => hourKey 0 e.consumed_at = p.time).length :=
  claim6_single_query_client_rebucketing 0 86400000 24 [] (Or.inl rfl)

/-- C7: against a pool whose remaining quota suffices for either one of two
concurrent `CheckAndReserve` calls but not both, every atomic interleaving (the
two sequential orders, since the check-and-decrement is one atomic step) has
exactly one call succeed and the other fail with `InsufficientQuota`. -/
theorem claim7_concurrent_reserve_exclusive (remaining a b : ℚ)
    (ha : a ≤ remaining) (hb : b ≤ remaining) (hab : remaining < a + b) :
    reserveTwice remaining a b
        = (.reserved (remaining - a), .insufficientQuota)
    ∧ reserveTwice remaining b a
        = (.reserved (remaining - b), .insufficientQuota) := by
  have ha2 : ¬ b ≤ remaining - a := by linarith
  have hb2 : ¬ a ≤ remaining - b := by linarith
  constructor
  · simp [reserveTwice, checkAndReserve, ha, ha2]
  · simp [reserveTwice, checkAndReserve, hb, hb2]

/-- C7 witness: a pool with `remaining = 1` and two unit-sized reservations. -/
theorem claim7_concurrent_reserve_exclusive_witness :
    reserveTwice 1 1 1 = (.reserved (1 - 1), .insufficientQuota)
    ∧ reserveTwice 1 1 1 = (.reserved (1 - 1), .insufficientQuota) :=
  claim7_concurrent_reserve_exclusive 1 1 1 (by norm_num) (by norm_num) (by norm_num)

/-- C8: when `/app/config.json` already exists the entrypoint leaves it
byte-for-byte unchanged regardless of the environment; only when it is absent is
the heredoc written, and every unset environment variable is replaced by its
fixed default (port `8045`, database `antigv`, redis port `6379`,
`sk-admin-default-key`, and the rest). -/
theorem claim8_entrypoint_config_preservation_and_defaults
    (c : String) (env : String → Option String) :
    entrypointConfig (some c) env = c
    ∧ entrypointConfig none env = renderConfig env
    ∧ (env "PORT" = none → configPort env = "8045")
    ∧ (env "DB_HOST" = none → configDbHost env = "localhost")
    ∧ (env "DB_PORT" = none → configDbPort env = "5432")
    ∧ (env "DB_NAME" = none → configDbName env = "antigv")
    ∧ (env "DB_USER" = none → configDbUser env = "postgres")
    ∧ (env "DB_PASSWORD" = none → configDbPassword env = "postgres")
    ∧ (env "REDIS_HOST" = none → configRedisHost env = "localhost")
    ∧ (env "REDIS_PORT" = none → configRedisPort env = "6379")
    ∧ (env "REDIS_PASSWORD" = none → configRedisPassword env = "")
    ∧ (env "OAUTH_CALLBACK_URL" = none →
        configOauthCallback env = "http://localhost:8045/api/oauth/callback")
    ∧ (env "ADMIN_API_KEY" = none → configAdminApiKey env = "sk-admin-default-key") := by
  refine ⟨rfl, rfl, ?_, ?_, ?_, ?_, ?_, ?_, ?_, ?_, ?_, ?_, ?_⟩ <;>
    · intro h
      simp only [configPort, configDbHost, configDbPort, configDbName, configDbUser,
        configDbPassword, configRedisHost, configRedisPort, configRedisPassword,
        configOauthCallback, configAdminApiKey, h, dollarDefault]

/-- C8 witness: the theorem at a mounted custom configuration and the empty
environment. -/
theorem claim8_entrypoint_config_preservation_and_defaults_witness :
    entrypointConfig (some "custom") (fun _ => none) = "custom"
    ∧ entrypointConfig none (fun _ => none) = renderConfig (fun _ => none)
    ∧ ((fun _ => (none : Option String)) "PORT" = none →
        configPort (fun _ => none) = "8045")
    ∧ ((fun _ => (none : Option String)) "DB_HOST" = none →
        configDbHost (fun _ => none) = "localhost")
    ∧ ((fun _ => (none : Option String)) "DB_PORT" = none →
        configDbPort (fun _ => none) = "5432")
    ∧ ((fun _ => (none : Option String)) "DB_NAME" = none →
        configDbName (fun _ => none) = "antigv")
    ∧ ((fun _ => (none : Option String)) "DB_USER" = none →
        configDbUser (fun _ => none) = "postgres")
    ∧ ((fun _ => (none : Option String)) "DB_PASSWORD" = none →
        configDbPassword (fun _ => none) = "postgres")
    ∧ ((fun _ => (none : Option String)) "REDIS_HOST" = none →
        configRedisHost (fun _ => none) = "localhost")
    ∧ ((fun _ => (none : Option String)) "REDIS_PORT" = none →
        configRedisPort (fun _ => none) = "6379")
    ∧ ((fun _ => (none : Option String)) "REDIS_PASSWORD" = none →
        configRedisPassword (fun _ => none) = "")
    ∧ ((fun _ => (none : Option String)) "OAUTH_CALLBACK_URL" = none →
        configOauthCallback (fun _ => none) = "http://localhost:8045/api/oauth/callback")
    ∧ ((fun _ => (none : Option String)) "ADMIN_API_KEY" = none →
        configAdminApiKey (fun _ => none) = "sk-admin-default-key") :=
  claim8_entrypoint_config_preservation_and_defaults "custom" (fun _ => none)

/-- C9: the init script creates the `antigravity` database only when none of that
name exists, so after `n ≥ 1` runs exactly one `antigravity` database exists and
every run beyond the first changes nothing. -/
theorem claim9_antigravity_init_idempotent (dbs : List String)
    (huniq : dbs.count "antigravity" ≤ 1) :
    ∀ n : Nat, 1 ≤ n →
      (initStep^[n] dbs).count "antigravity" = 1 ∧ initStep^[n] dbs = initStep dbs := by
  have hmem : "antigravity" ∈ initStep dbs := by
    unfold initStep
    by_cases h : "antigravity" ∈ dbs
    · rwa [if_pos h]
    · rw [if_neg h]
      simp
  have hidem : initStep (initStep dbs) = initStep dbs := by
    have hdef : initStep (initStep dbs)
        = if "antigravity" ∈ initStep dbs then initStep dbs
          else initStep dbs ++ ["antigravity"] := rfl
    rw [hdef, if_pos hmem]
  have hcount : (initStep dbs).count "antigravity" = 1 := by
    unfold initStep
    by_cases h : "antigravity" ∈ dbs
    · rw [if_pos h]
      have h1 : 0 < dbs.count "antigravity" := List.count_pos_iff.mpr h
      omega
    · rw [if_neg h]
      have h0 : dbs.count "antigravity" = 0 := List.count_eq_zero.mpr h
      rw [List.count_append, h0]
      simp
  have hiter : ∀ m : Nat, initStep^[m] (initStep dbs) = initStep dbs := by
    intro m
    induction m with
    | zero => rfl
    | succ k ihk => rw [Function.iterate_succ_apply, hidem, ihk]
  intro n hn
  obtain ⟨m, rfl⟩ : ∃ m, n = m + 1 := ⟨n - 1, by omega⟩
  rw [Function.iterate_succ_apply, hiter m]
  exact ⟨hcount, rfl⟩

/-- C9 witness: three runs against a fresh cluster holding `postgres` and
`antigv`. -/
theorem claim9_antigravity_init_idempotent_witness :
    (initStep^[3] ["postgres", "antigv"]).count "antigravity" = 1
    ∧ initStep^[3] ["postgres", "antigv"] = initStep ["postgres", "antigv"] :=
  claim9_antigravity_init_idempotent ["postgres", "antigv"] (by decide) 3 (by decide)

/-- C10: if the consumption fetch fails, `loadData` stores the message of the
thrown `Error` (or the default failure text for non-`Error` values), the trend data
stays the empty list it was initialised to (it is untouched on the error path),
and the loading flag is cleared on both the success and the failure path, so the
component never stays in the loading state after `loadData` completes. -/
theorem claim10_fetch_failure_handling (tz now : Int) (hours : Nat) (e : JsThrown) :
    (∀ (s : ComponentState) (r : FetchResult),
      (loadDataRun tz now hours s r).isLoading = false)
    ∧ (loadDataRun tz now hours initialComponentState (.thrown e)).data = []
    ∧ (loadDataRun tz now hours initialComponentState (.thrown e)).error
        = some (thrownMessage e)
    ∧ (∀ m : String, thrownMessage (.jsError m) = m)
    ∧ thrownMessage .nonError = "加载趋势数据失败"
    ∧ (∀ s : ComponentState, (loadDataRun tz now hours s (.thrown e)).data = s.data) := by
  refine ⟨?_, rfl, rfl, fun m => rfl, rfl, fun s => rfl⟩
  intro s r
  cases r <;> rfl
